import Mathlib

/-!
Shallow embedding of `src/dice-roller/dice_roller_server.py`.

The server exposes eight tool handlers (`roll_dice`, `flip_coin`, `roll_stats`,
`roll_with_advantage`, `percentile_roll`, `roll_initiative`, `random_choice`,
`roll_loot`) plus the utilities `parse_dice_notation`, `roll_single_die` and
`format_roll_result`.  Every handler takes string arguments and returns a
formatted string; all failure paths return literals beginning with the prefix
"❌ Error:".

Randomness model: Python's global `random` module is modelled by a seed stream
`g : Nat → Nat`; the k-th draw of a handler invocation consumes `g k`.
`random.randint(lo, hi)` on seed `t` is modelled as `lo + t % (hi + 1 - lo)`,
which ranges over exactly `[lo, hi]` as `t` ranges over `Nat`, and
`random.choice(xs)` as indexing `xs` at `t % xs.length`.  Handlers are thus
pure functions of their arguments and the seed stream; Python exceptions that
the source catches locally (`int` raising `ValueError`) are modelled by
`Option`.
-/

/-- Python `str.isspace` characters relevant to `str.strip()` (ASCII range:
space, tab, newline, carriage return, vertical tab, form feed). -/
def pyIsSpace (c : Char) : Bool :=
  c = ' ' || c = '\t' || c = '\n' || c = '\r' || c = '\x0b' || c = '\x0c'

/-- Python `str.strip()` on a character list: drop whitespace from both ends. -/
def pyStripChars (cs : List Char) : List Char :=
  ((cs.dropWhile pyIsSpace).reverse.dropWhile pyIsSpace).reverse

/-- Python `str.strip()` on a string. -/
def pyStrip (s : String) : String :=
  String.mk (pyStripChars s.data)

/-- Python `str.lower()` (ASCII letters; the source only compares against
ASCII keywords). -/
def pyLower (cs : List Char) : List Char :=
  cs.map Char.toLower

/-- Python `str.split(sep)` for a single-character separator: split at every
occurrence, keeping empty fragments. The result is always nonempty. -/
def splitChar (sep : Char) : List Char → List (List Char)
  | [] => [[]]
  | c :: rest =>
    match splitChar sep rest with
    | [] => if c = sep then [[], []] else [[c]]
    | grp :: grps => if c = sep then [] :: grp :: grps else (c :: grp) :: grps

/-- Decimal digit test, as accepted by Python `int()` for ASCII literals. -/
def pyIsDigit (c : Char) : Bool :=
  '0' ≤ c && c ≤ '9'

/-- Value of a digit string (most significant first). -/
def digitsToNat (cs : List Char) : Nat :=
  cs.foldl (fun a c => 10 * a + (c.toNat - 48)) 0

/-- Core of Python `int(str)` after stripping: an optional single sign followed
by a nonempty run of decimal digits; anything else raises `ValueError`,
modelled as `none`.  (The model covers ASCII decimal literals, which is the
shape of every numeric argument the handlers receive.) -/
def parseIntCore : List Char → Option Int
  | [] => none
  | '+' :: rest =>
    if rest ≠ [] && rest.all pyIsDigit then some (digitsToNat rest : Int) else none
  | '-' :: rest =>
    if rest ≠ [] && rest.all pyIsDigit then some (-(digitsToNat rest : Int)) else none
  | cs =>
    if cs.all pyIsDigit then some (digitsToNat cs : Int) else none

/-- Python `int(s)` for a string `s`: `int` itself strips surrounding
whitespace before parsing. -/
def pyInt (s : String) : Option Int :=
  parseIntCore (pyStripChars s.data)

/-- Python `random.randint(lo, hi)` on one seed: uniform draw over `[lo, hi]`
modelled as `lo + seed % (hi + 1 - lo)`. -/
def pyRandint (lo hi seed : Nat) : Nat :=
  lo + seed % (hi + 1 - lo)

/-- Source `roll_single_die(sides)`: `random.randint(1, sides)`. -/
def roll_single_die (sides seed : Nat) : Nat :=
  pyRandint 1 sides seed

/-- Python `random.choice(xs)` on one seed for a string list: index at
`seed % xs.length` (total; the source only calls it on nonempty lists). -/
def pyChoice (xs : List String) (seed : Nat) : String :=
  (xs.get? (seed % xs.length)).getD ""

/-- Source `parse_dice_notation`: strip and lowercase, require the separator
`'d'`, split on it into exactly two parts, parse count (empty count part means
1) and sides with Python `int`, validate `count ∈ [1,100]` and
`sides ∈ [2,1000]`; every failure returns `none` (the source's
`(None, None)`). -/
def parse_dice (s : String) : Option (Nat × Nat) :=
  let nm := pyLower (pyStripChars s.data)
  if nm.contains 'd' then
    match splitChar 'd' nm with
    | [p0, p1] =>
      match (if p0.isEmpty then some (1 : Int) else parseIntCore (pyStripChars p0)),
            parseIntCore (pyStripChars p1) with
      | some c, some sides =>
        if c < 1 ∨ 100 < c then none
        else if sides < 2 ∨ 1000 < sides then none
        else some (c.toNat, sides.toNat)
      | _, _ => none
    | _ => none
  else none

/-- Source `format_roll_result`: one roll renders without the list of
individual rolls, several rolls render with it. -/
def format_roll_result (rolls : List Nat) (total : Nat) (s : String) : String :=
  if rolls.length = 1 then
    "🎲 Rolled " ++ s ++ ": **" ++ toString total ++ "**"
  else
    "🎲 Rolled " ++ s ++ ": [" ++ String.intercalate ", " (rolls.map toString) ++
      "] = **" ++ toString total ++ "**"

/-- The list `[roll_single_die(sides) for _ in range(count)]` of `roll_dice`,
drawing seeds `g 0, …, g (count-1)`. -/
def dice_rolls (count sides : Nat) (g : Nat → Nat) : List Nat :=
  (List.range count).map fun i => roll_single_die sides (g i)

/-- Source handler `roll_dice`. -/
def roll_dice (s : String) (g : Nat → Nat) : String :=
  if (pyStripChars s.data).isEmpty then
    "❌ Error: Please specify dice notation (e.g., 1d20, 2d6)"
  else
    match parse_dice s with
    | none =>
      "❌ Error: Invalid dice notation. Use format like '1d20' or '2d6' (max 100 dice, 1000 sides)"
    | some (count, sides) =>
      let rolls := dice_rolls count sides g
      format_roll_result rolls rolls.sum s

/-- Source handler `flip_coin`: parse count (empty string means 1), require
`[1,100]`, draw that many coins with `random.choice(["Heads", "Tails"])`. -/
def flip_coin (count : String) (g : Nat → Nat) : String :=
  let numO : Option Int :=
    if (pyStripChars count.data).isEmpty then some 1 else pyInt count
  match numO with
  | none => "❌ Error: Invalid count value: " ++ count
  | some n =>
    if n < 1 ∨ 100 < n then "❌ Error: Count must be between 1 and 100"
    else
      let flips := (List.range n.toNat).map fun i => pyChoice ["Heads", "Tails"] (g i)
      if n = 1 then
        let res := flips.headD ""
        (if res = "Heads" then "👑" else "🪙") ++ " Coin flip: **" ++ res ++ "**"
      else
        "🪙 Flipped " ++ toString n ++ " coins:\n" ++ String.intercalate ", " flips ++
          "\n\nSummary: " ++ toString (flips.count "Heads") ++ " Heads, " ++
          toString (flips.count "Tails") ++ " Tails"

/-- The four d6 rolls of one `standard` stat (iteration `j` of the loop in
`roll_stats`), consuming seeds `g (4*j), …, g (4*j+3)`. -/
def stat_rolls (g : Nat → Nat) (j : Nat) : List Nat :=
  (List.range 4).map fun i => roll_single_die 6 (g (4 * j + i))

/-- One `standard` stat: sort the four rolls ascending (`rolls.sort()`) and sum
all but the lowest (`sum(rolls[1:])`). -/
def standard_stat (g : Nat → Nat) (j : Nat) : Nat :=
  ((List.insertionSort (· ≤ ·) (stat_rolls g j)).drop 1).sum

/-- The six `standard` stats of one `roll_stats` invocation. -/
def standard_stats (g : Nat → Nat) : List Nat :=
  (List.range 6).map (standard_stat g)

/-- One `heroic` stat: `roll_single_die(6) + roll_single_die(6) + 6`. -/
def heroic_stat (g : Nat → Nat) (j : Nat) : Nat :=
  roll_single_die 6 (g (2 * j)) + roll_single_die 6 (g (2 * j + 1)) + 6

/-- One `straight` stat: sum of three d6. -/
def straight_stat (g : Nat → Nat) (j : Nat) : Nat :=
  ((List.range 3).map fun i => roll_single_die 6 (g (3 * j + i))).sum

/-- Python `f"{total/6:.1f}"` for a natural `total`: the average rounded to one
decimal digit.  For a natural `total`, `total/6` has fractional part in
`{0, 1/6, …, 5/6}`, so the rendered tenths digit is the nearest tenth,
`⌊(10*total + 3)/6⌋` — the half-way tie of `%.1f` banker's rounding never
arises (the tenths value `total*5/3` is never an exact half), and the
double-precision representation error of `total/6` (total ≤ 648) is far
smaller than the distance to any rounding boundary. -/
def avg_1dp (total : Nat) : String :=
  let d := (10 * total + 3) / 6
  toString (d / 10) ++ "." ++ toString (d % 10)

/-- Render of one `roll_stats` method branch:
`"🎲 D&D Ability Scores ({caption}):\n{stats}\n\nTotal: {total} | Average: {avg:.1f}"`. -/
def stats_render (caption : String) (stats : List Nat) : String :=
  "🎲 D&D Ability Scores (" ++ caption ++ "):\n" ++
    String.intercalate ", " (stats.map toString) ++
    "\n\nTotal: " ++ toString stats.sum ++ " | Average: " ++ avg_1dp stats.sum

/-- Source handler `roll_stats`. -/
def roll_stats (method : String) (g : Nat → Nat) : String :=
  let m := String.mk (pyLower (pyStripChars method.data))
  if m = "standard" ∨ m = "" then
    stats_render "4d6 drop lowest" (standard_stats g)
  else if m = "heroic" then
    stats_render "2d6+6" ((List.range 6).map (heroic_stat g))
  else if m = "straight" then
    stats_render "3d6" ((List.range 6).map (straight_stat g))
  else
    "❌ Error: Invalid method. Use 'standard', 'heroic', or 'straight'"

/-- Render of `roll_with_advantage`:
`"{emoji} Rolling d{n} with {name}:\nRolls: {r1}, {r2}\nResult: **{res}**"`. -/
def adv_render (emoji : String) (n : Nat) (name : String) (r1 r2 res : Nat) : String :=
  emoji ++ " Rolling d" ++ toString n ++ " with " ++ name ++ ":\nRolls: " ++
    toString r1 ++ ", " ++ toString r2 ++ "\nResult: **" ++ toString res ++ "**"

/-- The normalized advantage type: `advantage_type.strip().lower()`. -/
def adv_norm (s : String) : String :=
  String.mk (pyLower (pyStripChars s.data))

/-- Source handler `roll_with_advantage`: parse sides (empty means 20),
require `[2,1000]`, draw two dice, keep max for advantage / min for
disadvantage, unknown type is an error. -/
def roll_with_advantage (sides advantage_type : String) (g : Nat → Nat) : String :=
  let sidesO : Option Int :=
    if (pyStripChars sides.data).isEmpty then some 20 else pyInt sides
  match sidesO with
  | none => "❌ Error: Invalid sides value: " ++ sides
  | some ns =>
    if ns < 2 ∨ 1000 < ns then "❌ Error: Sides must be between 2 and 1000"
    else
      let r1 := roll_single_die ns.toNat (g 0)
      let r2 := roll_single_die ns.toNat (g 1)
      let t := adv_norm advantage_type
      if t = "advantage" ∨ t = "adv" then
        adv_render "⬆️" ns.toNat "Advantage" r1 r2 (Nat.max r1 r2)
      else if t = "disadvantage" ∨ t = "dis" ∨ t = "disadv" then
        adv_render "⬇️" ns.toNat "Disadvantage" r1 r2 (Nat.min r1 r2)
      else
        "❌ Error: Type must be 'advantage' or 'disadvantage'"

/-- The quality band of `percentile_roll` for a given d100 result. -/
def percentile_quality (result : Nat) : String :=
  if result ≤ 5 then "Critical Success! 🌟"
  else if result ≤ 25 then "Success ✅"
  else if result ≤ 75 then "Moderate 📊"
  else if result ≤ 95 then "Failure ❌"
  else "Critical Failure! 💥"

/-- Source handler `percentile_roll`: one `random.randint(1, 100)` draw. -/
def percentile_roll (g : Nat → Nat) : String :=
  let result := pyRandint 1 100 (g 0)
  "🎲 Percentile Roll (d100): **" ++ toString result ++ "**\n" ++
    percentile_quality result

/-- The bonus as displayed by `roll_initiative`: `f"+{b}"` when `b ≥ 0`,
otherwise `str(b)`. -/
def bonus_repr (b : Int) : String :=
  if 0 ≤ b then "+" ++ toString b else toString b

/-- The initiative tuples `(i+1, roll, roll+bonus)` built by the loop in
`roll_initiative`, participant `i` consuming seed `g i`. -/
def initiative_entries (n : Nat) (b : Int) (g : Nat → Nat) : List (Nat × Nat × Int) :=
  (List.range n).map fun i =>
    let roll := roll_single_die 20 (g i)
    (i + 1, roll, (roll : Int) + b)

/-- The comparison used to model Python's stable
`initiatives.sort(key=lambda x: x[2], reverse=True)`: entry `x` may precede
entry `y` when `y`'s total does not exceed `x`'s. -/
def init_ge (x y : Nat × Nat × Int) : Prop :=
  y.2.2 ≤ x.2.2

instance : DecidableRel init_ge := fun x y => Int.decLe y.2.2 x.2.2

/-- The initiative entries after the stable descending sort by total. -/
def initiative_sorted (n : Nat) (b : Int) (g : Nat → Nat) : List (Nat × Nat × Int) :=
  List.insertionSort init_ge (initiative_entries n b g)

/-- One line of the multi-character initiative render. -/
def initiative_line (b : Int) (e : Nat × Nat × Int) : String :=
  "Character " ++ toString e.1 ++ ": " ++ toString e.2.1 ++ " " ++ bonus_repr b ++
    " = **" ++ toString e.2.2 ++ "**"

/-- Source handler `roll_initiative`: parse count (empty means 1) and bonus
(empty means 0), require `count ∈ [1,20]` and `bonus ∈ [-10,20]`, roll a d20
per participant, sort descending by total (stable), render one line or a
ranked list. -/
def roll_initiative (bonus count : String) (g : Nat → Nat) : String :=
  let nO : Option Int :=
    if (pyStripChars count.data).isEmpty then some 1 else pyInt count
  let bO : Option Int :=
    if (pyStripChars bonus.data).isEmpty then some 0 else pyInt bonus
  match nO, bO with
  | some n, some b =>
    if n < 1 ∨ 20 < n then "❌ Error: Count must be between 1 and 20"
    else if b < -10 ∨ 20 < b then "❌ Error: Bonus must be between -10 and +20"
    else
      let es := initiative_sorted n.toNat b g
      if n = 1 then
        -- `initiatives[0]`; the default is unreachable since count ≥ 1.
        let e := es.headD (0, 0, 0)
        "⚔️ Initiative: " ++ toString e.2.1 ++ " " ++ bonus_repr b ++ " = **" ++
          toString e.2.2 ++ "**"
      else
        String.intercalate "\n" ("⚔️ Initiative Order:" :: es.map (initiative_line b))
  | _, _ => "❌ Error: Invalid number value"

/-- The option list of `random_choice`:
`[opt.strip() for opt in options.split(",") if opt.strip()]` — split on
commas, strip each piece, keep only the nonempty ones (no deduplication). -/
def choices_of (options : String) : List String :=
  (((splitChar ',' options.data).map fun cs => String.mk (pyStripChars cs)).filter
    fun t => t ≠ "")

/-- Source handler `random_choice`: reject empty input, fewer than 2 or more
than 50 parsed options, otherwise pick one uniformly. -/
def random_choice (options : String) (g : Nat → Nat) : String :=
  if (pyStripChars options.data).isEmpty then
    "❌ Error: Please provide comma-separated options (e.g., 'attack, defend, flee')"
  else
    let cs := choices_of options
    if cs.length < 2 then
      "❌ Error: Please provide at least 2 options separated by commas"
    else if 50 < cs.length then
      "❌ Error: Maximum 50 options allowed"
    else
      "🎯 Random Choice:\nOptions: " ++ String.intercalate ", " cs ++
        "\nSelected: **" ++ pyChoice cs (g 0) ++ "**"

/-- Quality bands of `roll_loot` for the `common` tier. -/
def common_quality (roll : Nat) : String :=
  if roll ≤ 60 then "Poor quality item"
  else if roll ≤ 90 then "Average quality item"
  else "Good quality item"

/-- Quality bands of `roll_loot` for the `uncommon` tier. -/
def uncommon_quality (roll : Nat) : String :=
  if roll ≤ 50 then "Average quality item"
  else if roll ≤ 85 then "Good quality item"
  else "Exceptional item! ✨"

/-- Quality bands of `roll_loot` for the `rare` tier. -/
def rare_quality (roll : Nat) : String :=
  if roll ≤ 40 then "Good quality item"
  else if roll ≤ 80 then "Exceptional item! ✨"
  else "Masterwork item! ⭐"

/-- Quality bands of `roll_loot` for the `legendary` tier. -/
def legendary_quality (roll : Nat) : String :=
  if roll ≤ 30 then "Exceptional item! ✨"
  else if roll ≤ 70 then "Masterwork item! ⭐"
  else "Legendary artifact! 🏆"

/-- Python `str.capitalize()`: first character upper-cased, the rest
lower-cased. -/
def pyCapitalize (s : String) : String :=
  match s.data with
  | [] => ""
  | c :: rest => String.mk (c.toUpper :: rest.map Char.toLower)

/-- Render of `roll_loot`:
`"💎 Loot Roll ({label}):\nRoll: {roll}\nResult: {quality}"`. -/
def loot_render (label : String) (roll : Nat) (quality : String) : String :=
  "💎 Loot Roll (" ++ label ++ "):\nRoll: " ++ toString roll ++ "\nResult: " ++ quality

/-- Source handler `roll_loot`: normalize the rarity, draw a d100 in the
matching branch, map it through that tier's thresholds. -/
def roll_loot (rarity : String) (g : Nat → Nat) : String :=
  let rl := String.mk (pyLower (pyStripChars rarity.data))
  if rl = "common" ∨ rl = "" then
    let roll := roll_single_die 100 (g 0)
    loot_render (pyCapitalize rl) roll (common_quality roll)
  else if rl = "uncommon" then
    let roll := roll_single_die 100 (g 0)
    loot_render (pyCapitalize rl) roll (uncommon_quality roll)
  else if rl = "rare" then
    let roll := roll_single_die 100 (g 0)
    loot_render (pyCapitalize rl) roll (rare_quality roll)
  else if rl = "legendary" then
    let roll := roll_single_die 100 (g 0)
    loot_render (pyCapitalize rl) roll (legendary_quality roll)
  else
    "❌ Error: Rarity must be 'common', 'uncommon', 'rare', or 'legendary'"

/-! ## Helper lemmas -/

/-- A successful `pyInt` needs at least one non-whitespace character. -/
theorem pyInt_strip_not_empty {s : String} {v : Int} (h : pyInt s = some v) :
    (pyStripChars s.data).isEmpty = false := by
  unfold pyInt at h
  cases hc : pyStripChars s.data with
  | nil => rw [hc] at h; simp [parseIntCore] at h
  | cons a l => simp [List.isEmpty]

/-- Bounds of a single die: for a positive side count the roll lies in
`[1, sides]`. -/
theorem roll_single_die_bounds (sides seed : Nat) (h : 1 ≤ sides) :
    1 ≤ roll_single_die sides seed ∧ roll_single_die sides seed ≤ sides := by
  unfold roll_single_die pyRandint
  have hlt : seed % (sides + 1 - 1) < sides := by
    have : sides + 1 - 1 = sides := by omega
    rw [this]
    exact Nat.mod_lt _ (by omega)
  omega

/-- A successful parse means the normalized string contains `'d'`, hence the
stripped input is nonempty. -/
theorem parse_dice_strip_not_empty {s : String} {p : Nat × Nat}
    (h : parse_dice s = some p) : (pyStripChars s.data).isEmpty = false := by
  simp only [parse_dice] at h
  split at h
  · next hd =>
    cases hc : pyStripChars s.data with
    | nil => rw [hc] at hd; simp [pyLower] at hd
    | cons a l => simp [List.isEmpty]
  · exact absurd h (by simp)

/-- A successful parse yields `count ∈ [1,100]` and `sides ∈ [2,1000]`. -/
theorem parse_dice_bounds {s : String} {c sd : Nat}
    (h : parse_dice s = some (c, sd)) :
    1 ≤ c ∧ c ≤ 100 ∧ 2 ≤ sd ∧ sd ≤ 1000 := by
  simp only [parse_dice] at h
  split at h
  · split at h
    · split at h
      · next ci si _ _ =>
        split at h
        · exact absurd h (by simp)
        · split at h
          · exact absurd h (by simp)
          · next h1 h2 =>
            push_neg at h1 h2
            injection h with h'
            injection h' with hc hs
            subst hc; subst hs
            omega
      · exact absurd h (by simp)
    · exact absurd h (by simp)
  · exact absurd h (by simp)

/-- Auxiliary for C3: when the normalized input splits into an empty count
part and some sides part, any successful parse has count 1. -/
theorem parse_dice_default_count_aux {s : String} {p1 : List Char} {c sd : Nat}
    (hsp : splitChar 'd' (pyLower (pyStripChars s.data)) = [[], p1])
    (h : parse_dice s = some (c, sd)) : c = 1 := by
  simp only [parse_dice] at h
  split at h
  · rw [hsp] at h
    simp only [List.isEmpty_nil, if_true] at h
    split at h
    · next ci si hci hsi =>
      injection hci with hci'
      subst hci'
      norm_num at h
      exact h.2.1.symm
    · exact absurd h (by simp)
  · exact absurd h (by simp)

/-- C3: the dice-notation parser returns the absence value `none` (never an
exception) for each of the malformed inputs "d", "2d", "0d6", "101d6", "2d1",
"2d1001", "abcd6" and "2dabc"; and for every input whose count part is empty
after normalization, a successful parse reports count 1. -/
theorem C3_parse_rejects_and_default_count :
    (parse_dice "d" = none ∧ parse_dice "2d" = none ∧ parse_dice "0d6" = none ∧
     parse_dice "101d6" = none ∧ parse_dice "2d1" = none ∧
     parse_dice "2d1001" = none ∧ parse_dice "abcd6" = none ∧
     parse_dice "2dabc" = none) ∧
    ∀ (s : String) (p1 : List Char) (c sd : Nat),
      splitChar 'd' (pyLower (pyStripChars s.data)) = [[], p1] →
      parse_dice s = some (c, sd) → parse_dice s = some (1, sd) := by
  refine ⟨by decide, ?_⟩
  intro s p1 c sd hsp h
  have hc := parse_dice_default_count_aux hsp h
  subst hc
  exact h

/-- Witness for C3 at the concrete input "d20". -/
theorem C3_witness : parse_dice "d20" = some (1, 20) :=
  C3_parse_rejects_and_default_count.2 "d20" ['2', '0'] 1 20 (by decide) (by decide)

/-- The three legendary bands, characterized exactly. -/
theorem legendary_quality_bands (r : Nat) :
    (legendary_quality r = "Exceptional item! ✨" ↔ r ≤ 30) ∧
    (legendary_quality r = "Masterwork item! ⭐" ↔ 31 ≤ r ∧ r ≤ 70) ∧
    (legendary_quality r = "Legendary artifact! 🏆" ↔ 71 ≤ r) := by
  unfold legendary_quality
  split_ifs with h1 h2
  · exact ⟨⟨fun _ => h1, fun _ => rfl⟩,
      ⟨fun he => absurd he (by decide), fun hr => ((by omega : False)).elim⟩,
      ⟨fun he => absurd he (by decide), fun hr => ((by omega : False)).elim⟩⟩
  · exact ⟨⟨fun he => absurd he (by decide), fun hr => absurd hr h1⟩,
      ⟨fun _ => ⟨by omega, h2⟩, fun _ => rfl⟩,
      ⟨fun he => absurd he (by decide), fun hr => ((by omega : False)).elim⟩⟩
  · exact ⟨⟨fun he => absurd he (by decide), fun hr => absurd hr h1⟩,
      ⟨fun he => absurd he (by decide), fun hr => ((by omega : False)).elim⟩,
      ⟨fun _ => by omega, fun _ => rfl⟩⟩

/-- C5: for `roll_loot` with rarity "legendary" the underlying d100 roll lies
in [1,100] and maps to exactly one quality band: ≤30 exceptional, 31–70
masterwork, ≥71 legendary artifact; the boundaries 30/31 and 70/71 fall on
opposite sides, and the handler renders that band. -/
theorem C5_legendary_loot_thresholds (g : Nat → Nat) :
    (1 ≤ roll_single_die 100 (g 0) ∧ roll_single_die 100 (g 0) ≤ 100) ∧
    (∀ r : Nat,
      (legendary_quality r = "Exceptional item! ✨" ↔ r ≤ 30) ∧
      (legendary_quality r = "Masterwork item! ⭐" ↔ 31 ≤ r ∧ r ≤ 70) ∧
      (legendary_quality r = "Legendary artifact! 🏆" ↔ 71 ≤ r)) ∧
    legendary_quality 30 = "Exceptional item! ✨" ∧
    legendary_quality 31 = "Masterwork item! ⭐" ∧
    legendary_quality 70 = "Masterwork item! ⭐" ∧
    legendary_quality 71 = "Legendary artifact! 🏆" ∧
    roll_loot "legendary" g =
      loot_render "Legendary" (roll_single_die 100 (g 0))
        (legendary_quality (roll_single_die 100 (g 0))) := by
  refine ⟨roll_single_die_bounds 100 (g 0) (by omega), legendary_quality_bands,
    by decide, by decide, by decide, by decide, ?_⟩
  rfl

/-- C9: `flip_coin` returns the range error for any parsed count outside
`[1,100]`; for count "1" it returns a single Heads/Tails result with the
matching emoji (👑 for Heads, 🪙 for Tails). -/
theorem C9_flip_coin (countS : String) (n : Int) (g : Nat → Nat)
    (hp : pyInt countS = some n) :
    ((n < 1 ∨ 100 < n) →
      flip_coin countS g = "❌ Error: Count must be between 1 and 100") ∧
    flip_coin "1" g =
      (if pyChoice ["Heads", "Tails"] (g 0) = "Heads" then "👑" else "🪙") ++
        " Coin flip: **" ++ pyChoice ["Heads", "Tails"] (g 0) ++ "**" ∧
    (pyChoice ["Heads", "Tails"] (g 0) = "Heads" ∨
      pyChoice ["Heads", "Tails"] (g 0) = "Tails") := by
  refine ⟨?_, rfl, ?_⟩
  · intro hr
    have hne := pyInt_strip_not_empty hp
    simp only [flip_coin, hne, Bool.false_eq_true, if_false, hp]
    rw [if_pos hr]
  · have h2 : g 0 % 2 = 0 ∨ g 0 % 2 = 1 := by omega
    rcases h2 with h | h <;> simp [pyChoice, h]

/-- Witness for C9 at counts "0", "101" and "1". -/
theorem C9_witness :
    flip_coin "0" (fun _ => 0) = "❌ Error: Count must be between 1 and 100" ∧
    flip_coin "101" (fun _ => 0) = "❌ Error: Count must be between 1 and 100" ∧
    flip_coin "1" (fun _ => 0) = "👑 Coin flip: **Heads**" ∧
    flip_coin "1" (fun _ => 1) = "🪙 Coin flip: **Tails**" :=
  ⟨(C9_flip_coin "0" 0 (fun _ => 0) (by decide)).1 (Or.inl (by decide)),
   (C9_flip_coin "101" 101 (fun _ => 0) (by decide)).1 (Or.inr (by decide)),
   ((C9_flip_coin "1" 1 (fun _ => 0) (by decide)).2.1).trans (by decide),
   ((C9_flip_coin "1" 1 (fun _ => 1) (by decide)).2.1).trans (by decide)⟩

/-- C8: `random_choice` errors on empty/whitespace-only input and on fewer
than 2 or more than 50 parsed options; otherwise the selected item is a member
of the parsed option list and is echoed in the output. -/
theorem C8_random_choice (options : String) (g : Nat → Nat) :
    ((pyStripChars options.data).isEmpty = true →
      random_choice options g =
        "❌ Error: Please provide comma-separated options (e.g., 'attack, defend, flee')") ∧
    ((pyStripChars options.data).isEmpty = false →
      ((choices_of options).length < 2 →
        random_choice options g =
          "❌ Error: Please provide at least 2 options separated by commas") ∧
      (50 < (choices_of options).length →
        random_choice options g = "❌ Error: Maximum 50 options allowed") ∧
      (2 ≤ (choices_of options).length → (choices_of options).length ≤ 50 →
        pyChoice (choices_of options) (g 0) ∈ choices_of options ∧
        random_choice options g =
          "🎯 Random Choice:\nOptions: " ++
            String.intercalate ", " (choices_of options) ++
            "\nSelected: **" ++ pyChoice (choices_of options) (g 0) ++ "**")) := by
  constructor
  · intro he
    simp only [random_choice, he, if_true]
  · intro hne
    simp only [random_choice, hne, Bool.false_eq_true, if_false]
    refine ⟨fun hlt => by rw [if_pos hlt], fun hgt => ?_, fun hge hle => ?_⟩
    · rw [if_neg (by omega), if_pos hgt]
    · refine ⟨?_, by rw [if_neg (by omega), if_neg (by omega)]⟩
      have hpos : 0 < (choices_of options).length := by omega
      have hidx : g 0 % (choices_of options).length < (choices_of options).length :=
        Nat.mod_lt _ hpos
      simp only [pyChoice, List.get?_eq_get hidx, Option.getD_some]
      exact List.get_mem _ _ _

/-- Witness for C8 at "a, b, c", "a" and "". -/
theorem C8_witness :
    pyChoice (choices_of "a, b, c") 1 ∈ choices_of "a, b, c" ∧
    random_choice "a, b, c" (fun _ => 1) =
      "🎯 Random Choice:\nOptions: a, b, c\nSelected: **b**" ∧
    random_choice "a" (fun _ => 0) =
      "❌ Error: Please provide at least 2 options separated by commas" ∧
    random_choice "" (fun _ => 0) =
      "❌ Error: Please provide comma-separated options (e.g., 'attack, defend, flee')" :=
  ⟨(((C8_random_choice "a, b, c" (fun _ => 1)).2 (by decide)).2.2 (by decide) (by decide)).1,
   ((((C8_random_choice "a, b, c" (fun _ => 1)).2 (by decide)).2.2 (by decide) (by decide)).2).trans
     (by decide),
   ((C8_random_choice "a" (fun _ => 0)).2 (by decide)).1 (by decide),
   (C8_random_choice "" (fun _ => 0)).1 (by decide)⟩

/-- Filtering keeps the full multiplicity of every element the predicate
accepts. -/
theorem count_filter_of_pos {p : String → Bool} {x : String} (hx : p x = true) :
    ∀ l : List String, (l.filter p).count x = l.count x := by
  intro l
  induction l with
  | nil => rfl
  | cons a t ih =>
    by_cases ha : p a = true
    · rw [List.filter_cons_of_pos ha, List.count_cons, List.count_cons, ih]
    · rw [List.filter_cons_of_neg (by simpa using ha), ih, List.count_cons]
      have hax : ¬ a = x := fun h => ha (h.symm ▸ hx)
      simp [hax]

/-- C10: `random_choice` removes only empty items when parsing and does not
deduplicate: every nonempty trimmed item keeps its multiplicity, so "a,a"
yields two options, both selectable, and the handler accepts it. -/
theorem C10_random_choice_no_dedup (g : Nat → Nat) :
    choices_of "a,a" = ["a", "a"] ∧
    (choices_of "a,a").length = 2 ∧
    pyChoice (choices_of "a,a") (g 0) = "a" ∧
    random_choice "a,a" g = "🎯 Random Choice:\nOptions: a, a\nSelected: **a**" ∧
    ∀ (options x : String), x ≠ "" →
      (choices_of options).count x =
        (((splitChar ',' options.data).map fun cs => String.mk (pyStripChars cs)).count x) := by
  have hsel : pyChoice (choices_of "a,a") (g 0) = "a" := by
    have h2 : g 0 % 2 = 0 ∨ g 0 % 2 = 1 := by omega
    have hch : choices_of "a,a" = ["a", "a"] := by decide
    rw [hch]
    rcases h2 with h | h <;> simp [pyChoice, h]
  refine ⟨by decide, by decide, hsel, ?_, ?_⟩
  · simp only [random_choice]
    rw [if_neg (by decide), if_neg (by decide), if_neg (by decide), hsel]
    decide
  · intro options x hx
    exact count_filter_of_pos (by simpa using hx) _

/-- Witness for C10: the duplicate list "a,a" at a concrete seed stream, and
the multiplicity fact at x = "a". -/
theorem C10_witness :
    random_choice "a,a" (fun _ => 1) =
      "🎯 Random Choice:\nOptions: a, a\nSelected: **a**" ∧
    (choices_of "a,a").count "a" =
      (((splitChar ',' "a,a".data).map fun cs => String.mk (pyStripChars cs)).count "a") :=
  ⟨(C10_random_choice_no_dedup (fun _ => 1)).2.2.2.1,
   (C10_random_choice_no_dedup (fun _ => 1)).2.2.2.2 "a,a" "a" (by decide)⟩

/-- C7: with a parsed sides value `S ∈ [2,1000]`, `roll_with_advantage` draws
two rolls in `[1,S]`; "advantage"/"adv" reports their maximum (≥ each roll),
"disadvantage"/"dis"/"disadv" reports their minimum (≤ each roll). -/
theorem C7_roll_with_advantage (sidesS advS : String) (S : Int) (g : Nat → Nat)
    (hp : pyInt sidesS = some S) (h2 : 2 ≤ S) (h3 : S ≤ 1000) :
    (1 ≤ roll_single_die S.toNat (g 0) ∧ roll_single_die S.toNat (g 0) ≤ S.toNat) ∧
    (1 ≤ roll_single_die S.toNat (g 1) ∧ roll_single_die S.toNat (g 1) ≤ S.toNat) ∧
    (adv_norm advS = "advantage" ∨ adv_norm advS = "adv" →
      roll_with_advantage sidesS advS g =
        adv_render "⬆️" S.toNat "Advantage" (roll_single_die S.toNat (g 0))
          (roll_single_die S.toNat (g 1))
          (Nat.max (roll_single_die S.toNat (g 0)) (roll_single_die S.toNat (g 1))) ∧
      roll_single_die S.toNat (g 0) ≤
        Nat.max (roll_single_die S.toNat (g 0)) (roll_single_die S.toNat (g 1)) ∧
      roll_single_die S.toNat (g 1) ≤
        Nat.max (roll_single_die S.toNat (g 0)) (roll_single_die S.toNat (g 1))) ∧
    (adv_norm advS = "disadvantage" ∨ adv_norm advS = "dis" ∨ adv_norm advS = "disadv" →
      roll_with_advantage sidesS advS g =
        adv_render "⬇️" S.toNat "Disadvantage" (roll_single_die S.toNat (g 0))
          (roll_single_die S.toNat (g 1))
          (Nat.min (roll_single_die S.toNat (g 0)) (roll_single_die S.toNat (g 1))) ∧
      Nat.min (roll_single_die S.toNat (g 0)) (roll_single_die S.toNat (g 1)) ≤
        roll_single_die S.toNat (g 0) ∧
      Nat.min (roll_single_die S.toNat (g 0)) (roll_single_die S.toNat (g 1)) ≤
        roll_single_die S.toNat (g 1)) := by
  have hne := pyInt_strip_not_empty hp
  have hpos : 1 ≤ S.toNat := by omega
  refine ⟨roll_single_die_bounds _ _ hpos, roll_single_die_bounds _ _ hpos, ?_, ?_⟩
  · intro ha
    refine ⟨?_, Nat.le_max_left _ _, Nat.le_max_right _ _⟩
    simp only [roll_with_advantage, hne, Bool.false_eq_true, if_false, hp]
    rw [if_neg (by omega), if_pos ha]
  · intro hd
    refine ⟨?_, Nat.min_le_left _ _, Nat.min_le_right _ _⟩
    simp only [roll_with_advantage, hne, Bool.false_eq_true, if_false, hp]
    rw [if_neg (by omega),
      if_neg (by rcases hd with h | h | h <;> rw [h] <;> decide), if_pos hd]

/-- Witness for C7 at sides "20" with both advantage and disadvantage. -/
theorem C7_witness :
    roll_with_advantage "20" "advantage" (fun i => i) =
      "⬆️ Rolling d20 with Advantage:\nRolls: 1, 2\nResult: **2**" ∧
    roll_with_advantage "20" "disadvantage" (fun i => i) =
      "⬇️ Rolling d20 with Disadvantage:\nRolls: 1, 2\nResult: **1**" ∧
    1 ≤ roll_single_die (20 : Int).toNat 0 ∧ roll_single_die (20 : Int).toNat 0 ≤ (20 : Int).toNat :=
  ⟨(((C7_roll_with_advantage "20" "advantage" 20 (fun i => i) (by decide) (by decide)
        (by decide)).2.2.1 (Or.inl (by decide))).1).trans (by decide),
   (((C7_roll_with_advantage "20" "disadvantage" 20 (fun i => i) (by decide) (by decide)
        (by decide)).2.2.2 (Or.inl (by decide))).1).trans (by decide),
   (C7_roll_with_advantage "20" "advantage" 20 (fun i => i) (by decide) (by decide)
        (by decide)).1⟩

/-- C2: for every notation the parser accepts (count `C ∈ [1,100]`, sides
`S ∈ [2,1000]`), `roll_dice` produces exactly `C` rolls, each in `[1,S]`,
reports their sum as the total, and renders a single roll as
`🎲 Rolled {s}: **{total}**` and several rolls as
`🎲 Rolled {s}: [{r1, r2, …}] = **{total}**`. -/
theorem C2_roll_dice_valid (s : String) (c sd : Nat) (g : Nat → Nat)
    (h : parse_dice s = some (c, sd)) :
    1 ≤ c ∧ c ≤ 100 ∧ 2 ≤ sd ∧ sd ≤ 1000 ∧
    (dice_rolls c sd g).length = c ∧
    (∀ r ∈ dice_rolls c sd g, 1 ≤ r ∧ r ≤ sd) ∧
    roll_dice s g = format_roll_result (dice_rolls c sd g) (dice_rolls c sd g).sum s ∧
    (c = 1 → roll_dice s g =
      "🎲 Rolled " ++ s ++ ": **" ++ toString (dice_rolls c sd g).sum ++ "**") ∧
    (c ≠ 1 → roll_dice s g =
      "🎲 Rolled " ++ s ++ ": [" ++
        String.intercalate ", " ((dice_rolls c sd g).map toString) ++ "] = **" ++
        toString (dice_rolls c sd g).sum ++ "**") := by
  obtain ⟨hc1, hc2, hs1, hs2⟩ := parse_dice_bounds h
  have hne := parse_dice_strip_not_empty h
  have hlen : (dice_rolls c sd g).length = c := by
    simp [dice_rolls]
  have hmain : roll_dice s g =
      format_roll_result (dice_rolls c sd g) (dice_rolls c sd g).sum s := by
    simp only [roll_dice, hne, Bool.false_eq_true, if_false, h]
  refine ⟨hc1, hc2, hs1, hs2, hlen, ?_, hmain, ?_, ?_⟩
  · intro r hr
    simp only [dice_rolls, List.mem_map, List.mem_range] at hr
    obtain ⟨i, _, hi⟩ := hr
    exact hi ▸ roll_single_die_bounds sd (g i) (by omega)
  · intro hc
    rw [hmain]
    unfold format_roll_result
    rw [if_pos (by omega)]
  · intro hc
    rw [hmain]
    unfold format_roll_result
    rw [if_neg (by omega)]

/-- Witness for C2 at "2d6" and "1d6" with a concrete seed stream. -/
theorem C2_witness :
    (dice_rolls 2 6 (fun i => i)).length = 2 ∧
    (∀ r ∈ dice_rolls 2 6 (fun i => i), 1 ≤ r ∧ r ≤ 6) ∧
    roll_dice "2d6" (fun i => i) = "🎲 Rolled 2d6: [1, 2] = **3**" ∧
    roll_dice "1d6" (fun i => i) = "🎲 Rolled 1d6: **1**" :=
  ⟨(C2_roll_dice_valid "2d6" 2 6 (fun i => i) (by decide)).2.2.2.2.1,
   (C2_roll_dice_valid "2d6" 2 6 (fun i => i) (by decide)).2.2.2.2.2.1,
   ((C2_roll_dice_valid "2d6" 2 6 (fun i => i) (by decide)).2.2.2.2.2.2.2.2
     (by decide)).trans (by decide),
   ((C2_roll_dice_valid "1d6" 1 6 (fun i => i) (by decide)).2.2.2.2.2.2.2.1
     rfl).trans (by decide)⟩

/-- Sum bounds for a list of die faces in `[1,6]`. -/
theorem sum_bounds_d6 :
    ∀ l : List Nat, (∀ x ∈ l, 1 ≤ x ∧ x ≤ 6) →
      l.length ≤ l.sum ∧ l.sum ≤ 6 * l.length := by
  intro l
  induction l with
  | nil => simp
  | cons a t ih =>
    intro h
    have ha := h a (List.mem_cons_self a t)
    have ht := ih fun x hx => h x (List.mem_cons_of_mem a hx)
    simp only [List.sum_cons, List.length_cons]
    omega

/-- Each `standard` stat drops exactly the lowest of its four d6 rolls: there
is a minimal roll `m` with `stat + m = sum of all four`, and the stat lies in
`[3,18]`. -/
theorem standard_stat_top3 (g : Nat → Nat) (j : Nat) :
    ∃ m, m ∈ stat_rolls g j ∧ (∀ x ∈ stat_rolls g j, m ≤ x) ∧
      standard_stat g j + m = (stat_rolls g j).sum ∧
      3 ≤ standard_stat g j ∧ standard_stat g j ≤ 18 := by
  have hbounds : ∀ x ∈ stat_rolls g j, 1 ≤ x ∧ x ≤ 6 := by
    intro x hx
    simp only [stat_rolls, List.mem_map, List.mem_range] at hx
    obtain ⟨i, _, hi⟩ := hx
    exact hi ▸ roll_single_die_bounds 6 _ (by omega)
  have hperm := List.perm_insertionSort (· ≤ ·) (stat_rolls g j)
  have hsorted := List.sorted_insertionSort (· ≤ ·) (stat_rolls g j)
  have hlen : (List.insertionSort (· ≤ ·) (stat_rolls g j)).length = 4 := by
    rw [hperm.length_eq]; simp [stat_rolls]
  obtain ⟨m, t, hmt⟩ :
      ∃ m t, List.insertionSort (· ≤ ·) (stat_rolls g j) = m :: t := by
    cases hst : List.insertionSort (· ≤ ·) (stat_rolls g j) with
    | nil => rw [hst] at hlen; simp at hlen
    | cons a u => exact ⟨a, u, rfl⟩
  have hmem : ∀ x ∈ t, x ∈ stat_rolls g j := by
    intro x hx
    exact hperm.mem_iff.mp (hmt ▸ List.mem_cons_of_mem m hx)
  have htlen : t.length = 3 := by
    rw [hmt] at hlen; simpa using hlen
  have hstat : standard_stat g j = t.sum := by
    unfold standard_stat
    rw [hmt]
    simp
  have htb := sum_bounds_d6 t fun x hx => hbounds x (hmem x hx)
  refine ⟨m, ?_, ?_, ?_, by omega, by omega⟩
  · exact hperm.mem_iff.mp (hmt ▸ List.mem_cons_self m t)
  · intro x hx
    rcases hperm.mem_iff.mpr hx |> fun hx' => (hmt ▸ hx' : x ∈ m :: t) |> List.mem_cons.mp
      with h | h
    · omega
    · exact List.rel_of_sorted_cons (hmt ▸ hsorted) x h
  · rw [hstat, ← hperm.sum_eq, hmt]
    simp [Nat.add_comm]

/-- C6: `roll_stats` with method "standard" produces exactly 6 stats, each the
sum of the highest 3 of 4 d6 (the lowest is dropped, so each lies in [3,18]),
and reports the total of the 6 values and the average `total/6` formatted to
one decimal place. -/
theorem C6_roll_stats_standard (g : Nat → Nat) :
    (standard_stats g).length = 6 ∧
    (∀ v ∈ standard_stats g, 3 ≤ v ∧ v ≤ 18) ∧
    (∀ j : Nat, ∃ m, m ∈ stat_rolls g j ∧ (∀ x ∈ stat_rolls g j, m ≤ x) ∧
      standard_stat g j + m = (stat_rolls g j).sum) ∧
    roll_stats "standard" g = stats_render "4d6 drop lowest" (standard_stats g) ∧
    stats_render "4d6 drop lowest" (standard_stats g) =
      "🎲 D&D Ability Scores (4d6 drop lowest):\n" ++
        String.intercalate ", " ((standard_stats g).map toString) ++
        "\n\nTotal: " ++ toString (standard_stats g).sum ++ " | Average: " ++
        avg_1dp (standard_stats g).sum := by
  refine ⟨by simp [standard_stats], ?_, ?_, rfl, rfl⟩
  · intro v hv
    simp only [standard_stats, List.mem_map, List.mem_range] at hv
    obtain ⟨j, _, hj⟩ := hv
    obtain ⟨m, _, _, _, hb1, hb2⟩ := standard_stat_top3 g j
    exact hj ▸ ⟨hb1, hb2⟩
  · intro j
    obtain ⟨m, hm1, hm2, hm3, _, _⟩ := standard_stat_top3 g j
    exact ⟨m, hm1, hm2, hm3⟩

/-- Witness for C6 at the all-ones seed stream (every die shows 1). -/
theorem C6_witness :
    (standard_stats (fun _ => 0)).length = 6 ∧
    (3 ≤ standard_stat (fun _ => 0) 0 ∧ standard_stat (fun _ => 0) 0 ≤ 18) ∧
    roll_stats "standard" (fun _ => 0) =
      "🎲 D&D Ability Scores (4d6 drop lowest):\n3, 3, 3, 3, 3, 3\n\nTotal: 18 | Average: 3.0" :=
  ⟨(C6_roll_stats_standard (fun _ => 0)).1,
   (C6_roll_stats_standard (fun _ => 0)).2.1 (standard_stat (fun _ => 0) 0) (by decide),
   ((C6_roll_stats_standard (fun _ => 0)).2.2.2.1).trans (by decide)⟩

/-- The invariant a stable descending sort guarantees on initiative entries:
later entries have no larger total, and on equal totals the original
participant order (strictly increasing first components) is kept. -/
def init_stable (x y : Nat × Nat × Int) : Prop :=
  y.2.2 ≤ x.2.2 ∧ (x.2.2 = y.2.2 → x.1 < y.1)

/-- Inserting an entry whose first component is below everything in a
stable-descending list keeps the list stable-descending. -/
theorem orderedInsert_init_stable (a : Nat × Nat × Int) :
    ∀ s : List (Nat × Nat × Int), s.Pairwise init_stable →
      (∀ x ∈ s, a.1 < x.1) →
      (List.orderedInsert init_ge a s).Pairwise init_stable := by
  intro s
  induction s with
  | nil => intro _ _; simp [List.orderedInsert, List.pairwise_singleton]
  | cons b t ih =>
    intro hp hidx
    have hp' := List.pairwise_cons.mp hp
    rw [List.orderedInsert]
    split
    · next hab =>
      refine List.Pairwise.cons ?_ hp
      intro y hy
      rcases List.mem_cons.mp hy with h | h
      · subst h
        exact ⟨hab, fun _ => hidx _ (List.mem_cons_self _ _)⟩
      · have hby := hp'.1 y h
        exact ⟨le_trans hby.1 hab, fun _ => hidx _ (List.mem_cons_of_mem _ h)⟩
    · next hab =>
      have hlt : a.2.2 < b.2.2 := lt_of_not_le hab
      refine List.Pairwise.cons ?_
        (ih hp'.2 fun x hx => hidx _ (List.mem_cons_of_mem _ hx))
      intro y hy
      rcases (List.mem_orderedInsert init_ge).mp hy with h | h
      · subst h
        exact ⟨le_of_lt hlt, fun he => by omega⟩
      · exact hp'.1 y h

/-- Insertion sort by descending total is stable: from a list with strictly
increasing first components it produces a stable-descending list. -/
theorem insertionSort_init_stable :
    ∀ l : List (Nat × Nat × Int), (l.Pairwise fun x y => x.1 < y.1) →
      (List.insertionSort init_ge l).Pairwise init_stable := by
  intro l
  induction l with
  | nil => intro _; simp [List.insertionSort]
  | cons a t ih =>
    intro hp
    have hp' := List.pairwise_cons.mp hp
    rw [List.insertionSort]
    exact orderedInsert_init_stable a _ (ih hp'.2)
      fun x hx => hp'.1 x ((List.mem_insertionSort init_ge).mp hx)

/-- The initiative entries carry strictly increasing participant numbers. -/
theorem initiative_entries_indices (n : Nat) (b : Int) (g : Nat → Nat) :
    (initiative_entries n b g).Pairwise fun x y => x.1 < y.1 := by
  unfold initiative_entries
  refine List.Pairwise.map _ ?_ (List.pairwise_lt_range n)
  intro i j hij
  simpa using hij

/-- C4: with parsed bonus `B ∈ [-10,20]` and count `N ∈ [1,20]`,
`roll_initiative` produces exactly `N` entries, each total is its raw d20 roll
(in [1,20]) plus `B`, the displayed order is descending by total and stable on
ties (original participant order kept), and out-of-range values yield the
range errors. -/
theorem C4_roll_initiative (bonusS countS : String) (n b : Int) (g : Nat → Nat)
    (hn : pyInt countS = some n) (hb : pyInt bonusS = some b) :
    (1 ≤ n → n ≤ 20 → -10 ≤ b → b ≤ 20 →
      (initiative_sorted n.toNat b g).length = n.toNat ∧
      (∀ e ∈ initiative_sorted n.toNat b g,
        1 ≤ e.2.1 ∧ e.2.1 ≤ 20 ∧ e.2.2 = (e.2.1 : Int) + b) ∧
      ((initiative_sorted n.toNat b g).Pairwise fun x y => y.2.2 ≤ x.2.2) ∧
      ((initiative_sorted n.toNat b g).Pairwise fun x y => x.2.2 = y.2.2 → x.1 < y.1) ∧
      (n = 1 → roll_initiative bonusS countS g =
        "⚔️ Initiative: " ++
          toString ((initiative_sorted n.toNat b g).headD (0, 0, 0)).2.1 ++ " " ++
          bonus_repr b ++ " = **" ++
          toString ((initiative_sorted n.toNat b g).headD (0, 0, 0)).2.2 ++ "**") ∧
      (n ≠ 1 → roll_initiative bonusS countS g =
        String.intercalate "\n"
          ("⚔️ Initiative Order:" ::
            (initiative_sorted n.toNat b g).map (initiative_line b)))) ∧
    ((n < 1 ∨ 20 < n) →
      roll_initiative bonusS countS g = "❌ Error: Count must be between 1 and 20") ∧
    (1 ≤ n → n ≤ 20 → (b < -10 ∨ 20 < b) →
      roll_initiative bonusS countS g = "❌ Error: Bonus must be between -10 and +20") := by
  have hnec := pyInt_strip_not_empty hn
  have hneb := pyInt_strip_not_empty hb
  have hstable :=
    insertionSort_init_stable (initiative_entries n.toNat b g)
      (initiative_entries_indices n.toNat b g)
  refine ⟨?_, ?_, ?_⟩
  · intro hn1 hn2 hb1 hb2
    refine ⟨?_, ?_, hstable.imp fun h => h.1, hstable.imp fun h => h.2, ?_, ?_⟩
    · unfold initiative_sorted
      rw [List.length_insertionSort]
      simp [initiative_entries]
    · intro e he
      have he' := (List.mem_insertionSort init_ge).mp he
      simp only [initiative_entries, List.mem_map, List.mem_range] at he'
      obtain ⟨i, _, hi⟩ := he'
      have hr := roll_single_die_bounds 20 (g i) (by omega)
      rw [← hi]
      exact ⟨hr.1, hr.2, rfl⟩
    · intro h1
      simp only [roll_initiative, hnec, hneb, Bool.false_eq_true, if_false, hn, hb]
      rw [if_neg (by omega), if_neg (by omega), if_pos h1]
    · intro h1
      simp only [roll_initiative, hnec, hneb, Bool.false_eq_true, if_false, hn, hb]
      rw [if_neg (by omega), if_neg (by omega), if_neg h1]
  · intro hr
    simp only [roll_initiative, hnec, hneb, Bool.false_eq_true, if_false, hn, hb]
    rw [if_pos hr]
  · intro hn1 hn2 hr
    simp only [roll_initiative, hnec, hneb, Bool.false_eq_true, if_false, hn, hb]
    rw [if_neg (by omega), if_pos hr]

/-- Witness for C4 at bonus "5", count "3" with a concrete seed stream, and
the count range error at count "0". -/
theorem C4_witness :
    (initiative_sorted (3 : Int).toNat 5 (fun i => i)).length = (3 : Int).toNat ∧
    roll_initiative "5" "3" (fun i => i) =
      "⚔️ Initiative Order:\nCharacter 3: 3 +5 = **8**\nCharacter 2: 2 +5 = **7**\nCharacter 1: 1 +5 = **6**" ∧
    roll_initiative "5" "0" (fun i => i) = "❌ Error: Count must be between 1 and 20" ∧
    roll_initiative "21" "3" (fun i => i) = "❌ Error: Bonus must be between -10 and +20" :=
  ⟨((C4_roll_initiative "5" "3" 3 5 (fun i => i) (by decide) (by decide)).1
      (by decide) (by decide) (by decide) (by decide)).1,
   (((C4_roll_initiative "5" "3" 3 5 (fun i => i) (by decide) (by decide)).1
      (by decide) (by decide) (by decide) (by decide)).2.2.2.2.2 (by decide)).trans
     (by decide),
   (C4_roll_initiative "5" "0" 0 5 (fun i => i) (by decide) (by decide)).2.1
     (Or.inl (by decide)),
   (C4_roll_initiative "21" "3" 3 21 (fun i => i) (by decide) (by decide)).2.2
     (by decide) (by decide) (Or.inr (by decide))⟩

/-- `s` begins with the text `p`. -/
def marked (p s : String) : Prop :=
  ∃ rest, s = p ++ rest

/-- `s` begins with the uniform error text "❌ Error:". -/
def error_shaped (s : String) : Prop :=
  marked "❌ Error:" s

/-- A head marker survives appending on the right. -/
theorem marked_append_right {p a : String} (h : marked p a) (b : String) :
    marked p (a ++ b) := by
  obtain ⟨r, hr⟩ := h
  exact ⟨r ++ b, by rw [hr, String.append_assoc]⟩

/-- Concrete prefix check, kernel-computable for literal strings. -/
theorem marked_lit {p s : String} (h : s.data.take p.data.length = p.data) :
    marked p s := by
  refine ⟨String.mk (s.data.drop p.data.length), String.ext ?_⟩
  rw [String.data_append]
  show s.data = p.data ++ s.data.drop p.data.length
  conv_lhs => rw [← List.take_append_drop p.data.length s.data]
  rw [h]

/-- `String.intercalate.go` always begins with its accumulator. -/
theorem intercalate_go_head (sep : String) :
    ∀ (l : List String) (acc : String),
      ∃ rest, String.intercalate.go acc sep l = acc ++ rest := by
  intro l
  induction l with
  | nil => intro acc; exact ⟨"", by rw [String.intercalate.go, String.append_empty]⟩
  | cons b t ih =>
    intro acc
    obtain ⟨r, hr⟩ := ih (acc ++ sep ++ b)
    refine ⟨sep ++ b ++ r, ?_⟩
    rw [String.intercalate.go, hr, String.append_assoc, String.append_assoc,
      String.append_assoc]

/-- A joined list begins with whatever its first element begins with. -/
theorem marked_intercalate_head {p a : String} (h : marked p a) (sep : String)
    (l : List String) : marked p (String.intercalate sep (a :: l)) := by
  rw [String.intercalate]
  obtain ⟨r, hr⟩ := intercalate_go_head sep l a
  rw [hr]
  exact marked_append_right h r

/-- Shape of every `roll_dice` output. -/
theorem roll_dice_shape (s : String) (g : Nat → Nat) :
    error_shaped (roll_dice s g) ∨ marked "🎲" (roll_dice s g) := by
  simp only [roll_dice]
  split
  · exact Or.inl (marked_lit (by decide))
  · split
    · exact Or.inl (marked_lit (by decide))
    · refine Or.inr ?_
      unfold format_roll_result
      split
      · repeat apply marked_append_right
        exact marked_lit (by decide)
      · repeat apply marked_append_right
        exact marked_lit (by decide)

/-- Shape of every `flip_coin` output. -/
theorem flip_coin_shape (c : String) (g : Nat → Nat) :
    error_shaped (flip_coin c g) ∨ marked "👑" (flip_coin c g) ∨
      marked "🪙" (flip_coin c g) := by
  simp only [flip_coin]
  repeat' split
  all_goals first
    | (refine Or.inl ?_
       repeat apply marked_append_right
       exact marked_lit (by decide))
    | (refine Or.inr (Or.inl ?_)
       repeat apply marked_append_right
       exact marked_lit (by decide))
    | (refine Or.inr (Or.inr ?_)
       repeat apply marked_append_right
       exact marked_lit (by decide))

/-- Shape of every `roll_stats` output. -/
theorem roll_stats_shape (m : String) (g : Nat → Nat) :
    error_shaped (roll_stats m g) ∨ marked "🎲" (roll_stats m g) := by
  simp only [roll_stats, stats_render]
  repeat' split
  all_goals first
    | (refine Or.inl ?_
       repeat apply marked_append_right
       exact marked_lit (by decide))
    | (refine Or.inr ?_
       repeat apply marked_append_right
       exact marked_lit (by decide))

/-- Shape of every `roll_with_advantage` output. -/
theorem roll_with_advantage_shape (sd t : String) (g : Nat → Nat) :
    error_shaped (roll_with_advantage sd t g) ∨
      marked "⬆️" (roll_with_advantage sd t g) ∨
      marked "⬇️" (roll_with_advantage sd t g) := by
  simp only [roll_with_advantage, adv_render]
  repeat' split
  all_goals first
    | (refine Or.inl ?_
       repeat apply marked_append_right
       exact marked_lit (by decide))
    | (refine Or.inr (Or.inl ?_)
       repeat apply marked_append_right
       exact marked_lit (by decide))
    | (refine Or.inr (Or.inr ?_)
       repeat apply marked_append_right
       exact marked_lit (by decide))

/-- Shape of every `percentile_roll` output. -/
theorem percentile_roll_shape (g : Nat → Nat) :
    error_shaped (percentile_roll g) ∨ marked "🎲" (percentile_roll g) := by
  simp only [percentile_roll]
  refine Or.inr ?_
  repeat apply marked_append_right
  exact marked_lit (by decide)

/-- Shape of every `roll_initiative` output. -/
theorem roll_initiative_shape (b c : String) (g : Nat → Nat) :
    error_shaped (roll_initiative b c g) ∨ marked "⚔️" (roll_initiative b c g) := by
  simp only [roll_initiative]
  repeat' split
  all_goals first
    | (refine Or.inl ?_
       repeat apply marked_append_right
       exact marked_lit (by decide))
    | (refine Or.inr ?_
       repeat apply marked_append_right
       exact marked_lit (by decide))
    | (refine Or.inr ?_
       exact marked_intercalate_head (marked_lit (by decide)) _ _)

/-- Shape of every `random_choice` output. -/
theorem random_choice_shape (o : String) (g : Nat → Nat) :
    error_shaped (random_choice o g) ∨ marked "🎯" (random_choice o g) := by
  simp only [random_choice]
  repeat' split
  all_goals first
    | (refine Or.inl ?_
       repeat apply marked_append_right
       exact marked_lit (by decide))
    | (refine Or.inr ?_
       repeat apply marked_append_right
       exact marked_lit (by decide))

/-- Shape of every `roll_loot` output. -/
theorem roll_loot_shape (r : String) (g : Nat → Nat) :
    error_shaped (roll_loot r g) ∨ marked "💎" (roll_loot r g) := by
  simp only [roll_loot, loot_render]
  repeat' split
  all_goals first
    | (refine Or.inl ?_
       repeat apply marked_append_right
       exact marked_lit (by decide))
    | (refine Or.inr ?_
       repeat apply marked_append_right
       exact marked_lit (by decide))

/-- C1: every handler, on every string argument and every seed stream, returns
a total string whose shape is either its success render (beginning with the
handler's marker) or an error string beginning with "❌ Error:"; in
particular, every failure path yields the "❌ Error:" prefix and nothing
propagates as an exception. -/
theorem C1_handlers_never_raise (a1 a2 : String) (g : Nat → Nat) :
    (error_shaped (roll_dice a1 g) ∨ marked "🎲" (roll_dice a1 g)) ∧
    (error_shaped (flip_coin a1 g) ∨ marked "👑" (flip_coin a1 g) ∨
      marked "🪙" (flip_coin a1 g)) ∧
    (error_shaped (roll_stats a1 g) ∨ marked "🎲" (roll_stats a1 g)) ∧
    (error_shaped (roll_with_advantage a1 a2 g) ∨
      marked "⬆️" (roll_with_advantage a1 a2 g) ∨
      marked "⬇️" (roll_with_advantage a1 a2 g)) ∧
    (error_shaped (percentile_roll g) ∨ marked "🎲" (percentile_roll g)) ∧
    (error_shaped (roll_initiative a1 a2 g) ∨
      marked "⚔️" (roll_initiative a1 a2 g)) ∧
    (error_shaped (random_choice a1 g) ∨ marked "🎯" (random_choice a1 g)) ∧
    (error_shaped (roll_loot a1 g) ∨ marked "💎" (roll_loot a1 g)) :=
  ⟨roll_dice_shape a1 g, flip_coin_shape a1 g, roll_stats_shape a1 g,
   roll_with_advantage_shape a1 a2 g, percentile_roll_shape g,
   roll_initiative_shape a1 a2 g, random_choice_shape a1 g, roll_loot_shape a1 g⟩
